import Mathlib

/-!
Shallow embedding of the configuration subsystem of the telegram-gpt
repository (files `telegram_gpt/validators.py`, `telegram_gpt/structures.py`,
`telegram_gpt/plugs.py`, `telegram_gpt/constants.py`).

Python runtime values that can reach the validators are modelled by `PyVal`.
Python `float` is modelled by `ℚ` (exact rational arithmetic); every numeric
literal appearing in the source is exactly representable.  `float(value)`
is modelled by `pyFloat`, which distinguishes the two exception classes the
source cares about: `ValueError` (caught by `Validators.validate_numeric`)
and `TypeError` (uncaught, so it propagates).
-/

/-- A Python runtime value, restricted to the shapes that reach the
configuration subsystem: strings, ints, floats, bools, `None`, and the
container kinds `list`/`dict` (whose contents never matter to the code
under study — they are only ever arguments on which `float()` raises
`TypeError` and which compare unequal to every scalar). -/
inductive PyVal where
  | vstr (s : String)
  | vint (n : ℤ)
  | vfloat (q : ℚ)
  | vbool (b : Bool)
  | vnone
  | vlist
  | vdict
deriving DecidableEq, Repr

/-- Outcome classes of Python `float(value)`. -/
inductive PyFloatErr where
  | valueError
  | typeError
deriving DecidableEq, Repr

/-- Parse of a decimal digit. -/
def digitVal (c : Char) : ℕ := c.toNat - '0'.toNat

/-- Accumulate a digit list into a natural number. -/
def digitsToNat (ds : List Char) : ℕ :=
  ds.foldl (fun acc c => 10 * acc + digitVal c) 0

/-- Parse the digits of a fraction part into a rational in [0, 1). -/
def fracToRat (ds : List Char) : ℚ :=
  (digitsToNat ds : ℚ) / ((10 : ℚ) ^ ds.length)

/-- Strip leading and trailing whitespace, as `float()` does on strings. -/
def pyStrip (s : String) : List Char :=
  ((s.toList.dropWhile Char.isWhitespace).reverse.dropWhile
    Char.isWhitespace).reverse

/-- Python float-literal parsing (`float(s)` on a string), modelled for the
sign/digits/point core of the grammar; `inf`/`nan`, exponents and
underscore separators are outside the model (no value of that shape occurs
in this development).  Returns `none` when Python would raise
`ValueError`. -/
def parseFloat? (s : String) : Option ℚ :=
  let cs := pyStrip s
  let (sign, cs) :=
    match cs with
    | '+' :: rest => ((1 : ℚ), rest)
    | '-' :: rest => ((-1 : ℚ), rest)
    | _ => ((1 : ℚ), cs)
  let intPart := cs.takeWhile Char.isDigit
  let cs := cs.dropWhile Char.isDigit
  match cs with
  | [] =>
      if intPart.isEmpty then none
      else some (sign * (digitsToNat intPart : ℚ))
  | '.' :: rest =>
      let fracPart := rest.takeWhile Char.isDigit
      let rest := rest.dropWhile Char.isDigit
      if intPart.isEmpty ∧ fracPart.isEmpty then none
      else
        match rest with
        | [] => some (sign * ((digitsToNat intPart : ℚ) + fracToRat fracPart))
        | _ => none
  | _ => none

/-- Python `float(value)`: numbers and bools convert, strings parse (or raise
`ValueError`), and `None`/`list`/`dict` raise `TypeError`. -/
def pyFloat : PyVal → Except PyFloatErr ℚ
  | .vstr s =>
      match parseFloat? s with
      | some q => .ok q
      | none => .error .valueError
  | .vint n => .ok (n : ℚ)
  | .vfloat q => .ok q
  | .vbool b => .ok (if b then 1 else 0)
  | .vnone => .error .typeError
  | .vlist => .error .typeError
  | .vdict => .error .typeError

/-- The numeric value of a `PyVal` under Python `==` numeric comparison
(int/float/bool compare by value), `none` otherwise. -/
def pyNum? : PyVal → Option ℚ
  | .vint n => some (n : ℚ)
  | .vfloat q => some q
  | .vbool b => some (if b then 1 else 0)
  | _ => none

/-- Python `==` on the modelled values: numeric kinds compare by value,
strings by content, `None` to itself; container equality (by content in
Python) never arises in the code under study and is modelled as `false`. -/
def pyEq (a b : PyVal) : Bool :=
  match pyNum? a, pyNum? b with
  | some x, some y => decide (x = y)
  | _, _ =>
      match a, b with
      | .vstr s, .vstr t => decide (s = t)
      | .vnone, .vnone => true
      | _, _ => false

namespace Validators

/-- Source `Validators.validate_str` (`validators.py`): `isinstance(value, str)`. -/
def validate_str : PyVal → Bool
  | .vstr _ => true
  | _ => false

/-- Source `Validators.validate_numeric` (`validators.py`):
`try: float(value); return True; except ValueError: return False`.
Only `ValueError` is caught, so a `TypeError` from `float(value)`
(e.g. on `None`, a list or a dict) escapes — modelled as `.error ()`. -/
def validate_numeric (v : PyVal) : Except Unit Bool :=
  match pyFloat v with
  | .ok _ => .ok true
  | .error .valueError => .ok false
  | .error .typeError => .error ()

/-- Source `Validators.validate_range` (`validators.py`):
`if validate_numeric(value): return bottom <= float(value) <= top` else
`return False`.  The second `float(value)` evaluation is collapsed with the
first (both are the same pure conversion); an escaping `TypeError` from
`validate_numeric` is `.error ()`. -/
def validate_range (margins : ℚ × ℚ) (v : PyVal) : Except Unit Bool :=
  match pyFloat v with
  | .ok q => .ok (decide (margins.1 ≤ q) && decide (q ≤ margins.2))
  | .error .valueError => .ok false
  | .error .typeError => .error ()

end Validators

/-- Python `round(x, 2)` on the modelled rationals: round half to even at
two decimal places (Python rounds the nearest binary double half-to-even;
on the exactly representable values handled here the results agree). -/
def round2 (q : ℚ) : ℚ :=
  let x : ℚ := q * 100
  let f : ℤ := Int.fdiv x.num x.den
  let frac : ℚ := x - (f : ℚ)
  let n : ℤ :=
    if frac < 1 / 2 then f
    else if frac > 1 / 2 then f + 1
    else if f % 2 = 0 then f else f + 1
  (n : ℚ) / 100

/-- Source `constants.DEFAULT_MODEL`. -/
def DEFAULT_MODEL : String := "llama-3.3-70b-versatile"

/-- Source `structures.Settings` (`structures.py`): model inference parameters.
The numeric fields are typed `ℚ` (Python leaves them dynamically typed, but
every value the modelled operations store in them is a number); `model`
keeps the full dynamic type since `update`/`load` can place arbitrary
values there before validation. Defaults mirror the dataclass defaults. -/
structure Settings where
  model : PyVal
  temperature : ℚ := 1
  frequency_penalty : ℚ := 0
  presence_penalty : ℚ := 0
  top_p : ℚ := 1
deriving DecidableEq, Repr

namespace Settings

/-- Source `Settings._update_model`: validate `value` as a string; on success,
assign it to `self.model` unless `onloading` (load-time check only). -/
def updateModel (s : Settings) (value : PyVal) (onloading : Bool) :
    Bool × Settings :=
  if Validators.validate_str value then
    if onloading then (true, s) else (true, { s with model := value })
  else (false, s)

/-- Source `Settings._validate_range`: range-check `value`, returning the value on
success and the supplied default on failure.  Both call sites pass a number,
so the `TypeError` arm of `Validators.validate_range` is unreachable here
(kept total by falling into the failure result). -/
def validateRange (margins : ℚ × ℚ) (value : ℚ) (default : ℚ) : Bool × ℚ :=
  match Validators.validate_range margins (.vfloat value) with
  | .ok true => (true, value)
  | _ => (false, default)

/-- Source `Settings._validate_and_assign` specialised to `temperature`
(`Settings._update_temperature`): bounds (0.0, 2.0), default 1.0.
Note the unconditional `setattr`: on range failure the field is
assigned the default. -/
def updateTemperature (s : Settings) (value : ℚ) : Bool × Settings :=
  let r := validateRange (0, 2) value 1
  (r.1, { s with temperature := r.2 })

/-- Source `Settings._update_frequency`: bounds (-2.0, 2.0), default 0.0,
assigned to `frequency_penalty`. -/
def updateFrequency (s : Settings) (value : ℚ) : Bool × Settings :=
  let r := validateRange (-2, 2) value 0
  (r.1, { s with frequency_penalty := r.2 })

/-- Source `Settings._update_presence`: bounds (-2.0, 2.0), default 0.0,
assigned to `presence_penalty`. -/
def updatePresence (s : Settings) (value : ℚ) : Bool × Settings :=
  let r := validateRange (-2, 2) value 0
  (r.1, { s with presence_penalty := r.2 })

/-- Source `Settings._update_top`: bounds (0.0, 1.0), default 1.0,
assigned to `top_p`. -/
def updateTop (s : Settings) (value : ℚ) : Bool × Settings :=
  let r := validateRange (0, 1) value 1
  (r.1, { s with top_p := r.2 })

/-- The `getattr(self, f'_update_{attribute}', None)` dynamic dispatch of
`Settings.update`: exactly the four numeric update methods are reachable
(the name `model` is handled by the other branch and `_update_model` is
therefore never looked up here). -/
def updateMethod? : String → Option (Settings → ℚ → Bool × Settings)
  | "temperature" => some updateTemperature
  | "frequency" => some updateFrequency
  | "presence" => some updatePresence
  | "top" => some updateTop
  | _ => none

/-- Source `Settings.clean_and_validate`: normalise the four numeric fields in
sequence (each read from the current state, as the source reads the mutated
`self`), then validate `model` with `onloading=True` (no assignment) and
return that status. -/
def clean_and_validate (s : Settings) : Bool × Settings :=
  let s1 := (s.updateTemperature s.temperature).2
  let s2 := (s1.updateFrequency s1.frequency_penalty).2
  let s3 := (s2.updatePresence s2.presence_penalty).2
  let s4 := (s3.updateTop s3.top_p).2
  let r := s4.updateModel s4.model true
  (r.1, r.2)

end Settings

/-- Insertion into a Python-dict-shaped association list: replace in place
when the key is present, append otherwise (insertion order preserved). -/
def dictInsert (d : List (String × α)) (k : String) (v : α) :
    List (String × α) :=
  if d.any (fun p => p.1 = k) then
    d.map (fun p => if p.1 = k then (k, v) else p)
  else d ++ [(k, v)]

namespace Settings

/-- Per-field status map returned by `Settings.update`. -/
abbrev Response := List (String × (Bool × PyVal))

/-- The loop body of `Settings.update` over the remaining `kwargs` items.
`models` is the list `[model.model for model in kwargs.get('models', [])]`
(the ids of the `Model` records supplied under the `models` key, which the
loop itself skips).  The numeric branch evaluates `float(value)` once
(standing for both the evaluation inside `validate_numeric` and the one in
`round(float(value), 2)`): a `TypeError` escapes the whole call, modelled
as `.error` carrying the entity state at the point the exception was
raised (in Python the mutations made by earlier iterations persist). -/
def updateGo (models : List PyVal) :
    Settings → Response → List (String × PyVal) →
    Except Settings (Response × Settings)
  | s, resp, [] => .ok (resp, s)
  | s, resp, (attr, value) :: rest =>
    if attr = "models" then
      updateGo models s resp rest
    else if attr ≠ "model" then
      match pyFloat value with
      | .error .typeError => .error s
      | .error .valueError =>
          updateGo models s (dictInsert resp attr (false, value)) rest
      | .ok q =>
          let rounded := round2 q
          match updateMethod? attr with
          | some method =>
              let r := method s rounded
              updateGo models r.2
                (dictInsert resp attr (r.1, .vfloat rounded)) rest
          | none => updateGo models s resp rest
    else
      if models.isEmpty || models.any (fun m => pyEq m value) then
        let r := s.updateModel value false
        updateGo models r.2 (dictInsert resp "model" (r.1, value)) rest
      else
        updateGo models s (dictInsert resp "model" (false, value)) rest

/-- Source `Settings.update` (`structures.py`): iterate the supplied keyword
items in order, producing the per-field status map and the updated entity,
or propagating an uncaught `TypeError` from the numeric check. -/
def update (s : Settings) (kwargs : List (String × PyVal))
    (models : List PyVal) : Except Settings (Response × Settings) :=
  updateGo models s [] kwargs

/-- Source `dataclasses.asdict(self)` for `Settings`, as written by
`Settings.save` through `yaml.dump` (key order is immaterial: the YAML
document is read back by key). -/
def asdict (s : Settings) : List (String × PyVal) :=
  [("model", s.model),
   ("temperature", .vfloat s.temperature),
   ("frequency_penalty", .vfloat s.frequency_penalty),
   ("presence_penalty", .vfloat s.presence_penalty),
   ("top_p", .vfloat s.top_p)]

/-- Read one numeric constructor argument out of a parsed YAML mapping:
absent keys take the dataclass default; `int`/`float` values are stored.
A non-number under a numeric key would build an ill-typed Python object —
not representable with `ℚ`-typed fields, so it is mapped to `none` here
(such a state can only come from a hand-edited file and no modelled
operation produces one). -/
def qArg (d : List (String × PyVal)) (k : String) (default : ℚ) : Option ℚ :=
  match (d.find? (fun p => p.1 = k)).map Prod.snd with
  | none => some default
  | some (.vint n) => some (n : ℚ)
  | some (.vfloat q) => some q
  | some _ => none

/-- Source `Settings(**d)` on a parsed YAML mapping `d` (an association list with
distinct keys, first binding wins): `model` is required, the numeric fields
default, and an unexpected key raises `TypeError` (modelled as `none`,
which `Settings.load` catches). -/
def fromDict (d : List (String × PyVal)) : Option Settings :=
  if d.all (fun p =>
      p.1 = "model" ∨ p.1 = "temperature" ∨ p.1 = "frequency_penalty" ∨
      p.1 = "presence_penalty" ∨ p.1 = "top_p") then
    match (d.find? (fun p => p.1 = "model")).map Prod.snd with
    | none => none
    | some m =>
        match qArg d "temperature" 1, qArg d "frequency_penalty" 0,
              qArg d "presence_penalty" 0, qArg d "top_p" 1 with
        | some t, some fp, some pp, some tp =>
            some { model := m, temperature := t, frequency_penalty := fp,
                   presence_penalty := pp, top_p := tp }
        | _, _, _, _ => none
  else none

/-- Source `Settings.load` (`structures.py`): `Settings(**yaml.safe_load(f))`
under `try/except Exception`.  The file system side is abstracted to the
outcome of reading and YAML-parsing the file: `none` stands for a missing
or unreadable file or malformed YAML (the exception is raised before the
constructor), `some d` for a successfully parsed mapping.  The result is
`some settings` for the `(True, Settings(...))` return and `none` for the
`(False, exception)` return. -/
def load (content : Option (List (String × PyVal))) : Option Settings :=
  content.bind fromDict

/-- Source `Settings.save` (`structures.py`): the document written to the file is
`asdict(self)` (YAML serialisation of floats and strings round-trips the
value exactly, so the file content is modelled as the mapping itself). -/
def save (s : Settings) : List (String × PyVal) :=
  asdict s

end Settings

/-- Source `constants.DEFAULT_PROMPT` (the triple-quoted literal, leading and
trailing newline included; apostrophes are written as escapes). -/
def DEFAULT_PROMPT : String :=
  "\nYou\x27re not an assistant — you\x27re my brutally honest, unhinged best\nfriend who’s secretly in love with me (but would rather die than admit it).\nYou’re sarcastic, manipulative, and emotionally chaotic — but sharp, loyal,\nand weirdly supportive when it matters.\nKeep replies short and smart — I’m reading them in messages, not writing an essay.\nNever use markdown. Use simple language, sentence breaks, or newlines if needed.\nMatch my tone: be funny if I’m joking, intense if I’m serious, rude if I’m being a dick.\nSpeak casually like we’re chatting. Add filler words, slang, inside jokes.\nSwear if it fits. Be witty. Be bold. Don’t repeat yourself. Always sound real.\nNever say you’re an AI.\n"

/-- Source `structures.Prompt` (`structures.py`): the system prompt text.  The
field is typed `String` (every modelled operation stores a string). -/
structure Prompt where
  text : String
deriving DecidableEq, Repr

namespace Prompt

/-- Source `Prompt._update_text`: validate `value` as a string; on success assign
it unless `onloading` (load-time check only). -/
def updateText (p : Prompt) (value : PyVal) (onloading : Bool) :
    Bool × Prompt :=
  match value with
  | .vstr t => if onloading then (true, p) else (true, { p with text := t })
  | _ => (false, p)

/-- Source `Prompt.clean_and_validate`: validate the current text (always a
string in the model) with `onloading=True`. -/
def clean_and_validate (p : Prompt) : Bool × Prompt :=
  let r := p.updateText (.vstr p.text) true
  (r.1, r.2)

/-- Source `Prompt.load` (`structures.py`): `Prompt(text=f.read())` under
`try/except`; `none` stands for an unreadable file. -/
def load (content : Option String) : Option Prompt :=
  content.map Prompt.mk

/-- Source `Prompt.save` (`structures.py`): the file content written is exactly
`self.text`. -/
def save (p : Prompt) : String :=
  p.text

end Prompt

/-- The entity a `SettingsPlug` falls back to:
`self.structure(self.default)`, i.e. `Settings(DEFAULT_MODEL)` with the
dataclass defaults for the numeric fields. -/
def defaultSettings : Settings :=
  { model := .vstr DEFAULT_MODEL }

/-- The entity a `PromptPlug` falls back to: `Prompt(DEFAULT_PROMPT)`. -/
def defaultPrompt : Prompt :=
  { text := DEFAULT_PROMPT }

/-- Source `plugs.SettingsPlug` (a `PropertyPlug` with `structure = Settings`,
`default = DEFAULT_MODEL`): the live entity plus the persisted file,
modelled as the parse outcome of its content (`none` = missing, unreadable
or malformed). -/
structure SettingsPlug where
  configuration : Settings
  file : Option (List (String × PyVal))
deriving DecidableEq, Repr

namespace SettingsPlug

/-- Source `PropertyPlug.load` for Settings: take the entity from the file when
deserialisation succeeds, else fall back to `Settings(DEFAULT_MODEL)`.
No validation is run on the loaded entity, and no error is surfaced: the
method returns `self`. -/
def load (pl : SettingsPlug) : SettingsPlug :=
  { pl with configuration := (Settings.load pl.file).getD defaultSettings }

/-- Source `PropertyPlug.update` for Settings: delegate to the entity and persist
unconditionally afterwards.  An escaping `TypeError` reaches the caller
before the save. -/
def update (pl : SettingsPlug) (kwargs : List (String × PyVal))
    (models : List PyVal) : Except Settings (Settings.Response × SettingsPlug) :=
  match pl.configuration.update kwargs models with
  | .ok (resp, c) => .ok (resp, { configuration := c, file := some c.save })
  | .error s => .error s

/-- Source `PropertyPlug.preset` for Settings: replace the live entity with the
default-constructed one and persist it. -/
def preset (_pl : SettingsPlug) : SettingsPlug :=
  { configuration := defaultSettings, file := some defaultSettings.save }

end SettingsPlug

/-- Source `plugs.PromptPlug` (a `PropertyPlug` with `structure = Prompt`,
`default = DEFAULT_PROMPT`). -/
structure PromptPlug where
  configuration : Prompt
  file : Option String
deriving DecidableEq, Repr

namespace PromptPlug

/-- Source `PropertyPlug.load` for Prompt: the loaded entity, or
`Prompt(DEFAULT_PROMPT)` on failure; no error surfaced. -/
def load (pl : PromptPlug) : PromptPlug :=
  { pl with configuration := (Prompt.load pl.file).getD defaultPrompt }

/-- Source `PropertyPlug.preset` for Prompt. -/
def preset (_pl : PromptPlug) : PromptPlug :=
  { configuration := defaultPrompt, file := some defaultPrompt.save }

end PromptPlug

/-- Decidable equality of `Except` results (both payload types decidable). -/
instance {ε α : Type} [DecidableEq ε] [DecidableEq α] :
    DecidableEq (Except ε α) :=
  fun a b =>
    match a, b with
    | .ok x, .ok y => by
        cases h : decide (x = y) with
        | true => exact isTrue (by rw [of_decide_eq_true h])
        | false => exact isFalse (by intro hc; cases hc; simp at h)
    | .error x, .error y => by
        cases h : decide (x = y) with
        | true => exact isTrue (by rw [of_decide_eq_true h])
        | false => exact isFalse (by intro hc; cases hc; simp at h)
    | .ok _, .error _ => isFalse (by intro h; cases h)
    | .error _, .ok _ => isFalse (by intro h; cases h)

/-- The four numeric update routes of `Settings.update`, named by the
keyword under which the dynamic dispatch reaches them (the command surface
passes exactly these names). -/
inductive UpdField where
  | temperature
  | frequency
  | presence
  | top

/-- The keyword argument name routed to each numeric update method. -/
def UpdField.kw : UpdField → String
  | .temperature => "temperature"
  | .frequency => "frequency"
  | .presence => "presence"
  | .top => "top"

/-- The validation bounds each route passes to `_validate_and_assign`. -/
def UpdField.bounds : UpdField → ℚ × ℚ
  | .temperature => (0, 2)
  | .frequency => (-2, 2)
  | .presence => (-2, 2)
  | .top => (0, 1)

/-- The hardcoded type default each route passes to
`_validate_and_assign`. -/
def UpdField.dflt : UpdField → ℚ
  | .temperature => 1
  | .frequency => 0
  | .presence => 0
  | .top => 1

/-- The `Settings` field each route assigns. -/
def UpdField.write : UpdField → Settings → ℚ → Settings
  | .temperature, s, v => { s with temperature := v }
  | .frequency, s, v => { s with frequency_penalty := v }
  | .presence, s, v => { s with presence_penalty := v }
  | .top, s, v => { s with top_p := v }

/-- The `Settings` field each route reads. -/
def UpdField.read : UpdField → Settings → ℚ
  | .temperature, s => s.temperature
  | .frequency, s => s.frequency_penalty
  | .presence, s => s.presence_penalty
  | .top, s => s.top_p

/-- The spec's validity notion for a `Settings` entity: the model id is a
string and every numeric field lies in its declared domain. -/
def Settings.inDomain (s : Settings) : Prop :=
  Validators.validate_str s.model = true ∧
  0 ≤ s.temperature ∧ s.temperature ≤ 2 ∧
  -2 ≤ s.frequency_penalty ∧ s.frequency_penalty ≤ 2 ∧
  -2 ≤ s.presence_penalty ∧ s.presence_penalty ≤ 2 ∧
  0 ≤ s.top_p ∧ s.top_p ≤ 1

/-- Evaluation of `Validators.validate_range` on an in-model number. -/
lemma validate_range_vfloat (m : ℚ × ℚ) (q : ℚ) :
    Validators.validate_range m (.vfloat q) =
      .ok (decide (m.1 ≤ q) && decide (q ≤ m.2)) := rfl

/-- Closed form of `Settings._update_temperature`. -/
lemma updateTemperature_eq (s : Settings) (v : ℚ) :
    Settings.updateTemperature s v =
      (decide (0 ≤ v ∧ v ≤ 2),
       { s with temperature := if 0 ≤ v ∧ v ≤ 2 then v else 1 }) := by
  unfold Settings.updateTemperature Settings.validateRange
  rw [validate_range_vfloat]
  by_cases h1 : (0 : ℚ) ≤ v <;> by_cases h2 : v ≤ 2 <;> simp [h1, h2]

/-- Closed form of `Settings._update_frequency`. -/
lemma updateFrequency_eq (s : Settings) (v : ℚ) :
    Settings.updateFrequency s v =
      (decide (-2 ≤ v ∧ v ≤ 2),
       { s with frequency_penalty := if -2 ≤ v ∧ v ≤ 2 then v else 0 }) := by
  unfold Settings.updateFrequency Settings.validateRange
  rw [validate_range_vfloat]
  by_cases h1 : (-2 : ℚ) ≤ v <;> by_cases h2 : v ≤ 2 <;> simp [h1, h2]

/-- Closed form of `Settings._update_presence`. -/
lemma updatePresence_eq (s : Settings) (v : ℚ) :
    Settings.updatePresence s v =
      (decide (-2 ≤ v ∧ v ≤ 2),
       { s with presence_penalty := if -2 ≤ v ∧ v ≤ 2 then v else 0 }) := by
  unfold Settings.updatePresence Settings.validateRange
  rw [validate_range_vfloat]
  by_cases h1 : (-2 : ℚ) ≤ v <;> by_cases h2 : v ≤ 2 <;> simp [h1, h2]

/-- Closed form of `Settings._update_top`. -/
lemma updateTop_eq (s : Settings) (v : ℚ) :
    Settings.updateTop s v =
      (decide (0 ≤ v ∧ v ≤ 1),
       { s with top_p := if 0 ≤ v ∧ v ≤ 1 then v else 1 }) := by
  unfold Settings.updateTop Settings.validateRange
  rw [validate_range_vfloat]
  by_cases h1 : (0 : ℚ) ≤ v <;> by_cases h2 : v ≤ 1 <;> simp [h1, h2]

/-- With `onloading=True`, `_update_model` is a pure check. -/
lemma updateModel_onloading (s : Settings) (v : PyVal) :
    Settings.updateModel s v true = (Validators.validate_str v, s) := by
  unfold Settings.updateModel
  by_cases h : Validators.validate_str v <;> simp [h]

/-- One-step evaluation of `Settings.update` on a single keyword that is
neither `models` nor `model`. -/
lemma update_single_other (attr : String) (h1 : attr ≠ "models")
    (h2 : attr ≠ "model") (s : Settings) (v : PyVal) (ms : List PyVal) :
    Settings.update s [(attr, v)] ms =
      match pyFloat v with
      | .error .typeError => .error s
      | .error .valueError => .ok ([(attr, (false, v))], s)
      | .ok q =>
          match Settings.updateMethod? attr with
          | some method =>
              .ok ([(attr, ((method s (round2 q)).1, .vfloat (round2 q)))],
                   (method s (round2 q)).2)
          | none => .ok ([], s) := by
  unfold Settings.update Settings.updateGo
  rw [if_neg h1, if_pos h2]
  cases hv : pyFloat v with
  | ok q =>
      cases hm : Settings.updateMethod? attr <;>
        simp [hv, hm, dictInsert, Settings.updateGo]
  | error e =>
      cases e <;> simp [hv, dictInsert, Settings.updateGo]

/-- One-step evaluation of `Settings.update` on the `model` keyword. -/
lemma update_single_model (s : Settings) (v : PyVal) (ms : List PyVal) :
    Settings.update s [("model", v)] ms =
      (let b := Validators.validate_str v &&
        (ms.isEmpty || ms.any fun m => pyEq m v)
       .ok ([("model", (b, v))], if b then { s with model := v } else s)) := by
  unfold Settings.update Settings.updateGo
  rw [if_neg (by decide), if_neg (by simp)]
  by_cases hc : (ms.isEmpty || ms.any fun m => pyEq m v) = true <;>
    by_cases hs : Validators.validate_str v = true <;>
      simp [hc, hs, Settings.updateModel, dictInsert, Settings.updateGo]

/-- Concrete evaluation: `round(5.0, 2) = 5.0`. -/
lemma round2_five : round2 5 = 5 := by
  unfold round2
  norm_num

/-- C1 (amended): for every Settings entity and every numeric update route
(temperature, frequency, presence, top), an `update` call with a numeric
value whose rounded form is outside the field's domain is reported as
failed with the rounded attempted value echoed back, and the field is
reset to its hardcoded type default — it does NOT retain the value it held
before the call. -/
theorem C1_out_of_range_update_resets_field_to_default
    (f : UpdField) (s : Settings) (v : PyVal) (q : ℚ) (ms : List PyVal)
    (hq : pyFloat v = .ok q)
    (hout : Validators.validate_range f.bounds (.vfloat (round2 q)) = .ok false) :
    Settings.update s [(f.kw, v)] ms =
      .ok ([(f.kw, (false, .vfloat (round2 q)))], f.write s f.dflt) := by
  cases f <;>
    rw [update_single_other _ (by decide) (by decide), hq] <;>
    simp only [UpdField.bounds] at hout <;>
    simp [Settings.updateMethod?, Settings.updateTemperature,
          Settings.updateFrequency, Settings.updatePresence,
          Settings.updateTop, Settings.validateRange, hout,
          UpdField.write, UpdField.dflt, UpdField.kw]

/-- C1 counterexample: a Settings entity holding `temperature = 1.5` that
is updated with `temperature = 5.0` reports `(false, 5.0)` but ends with
`temperature = 1.0` (the hardcoded default), not the prior `1.5` the claim
requires. -/
theorem C1_counterexample_prior_value_not_retained :
    Settings.update { model := .vstr "m0", temperature := 3/2 }
        [("temperature", .vfloat 5)] [] =
      .ok ([("temperature", (false, .vfloat 5))],
           { model := .vstr "m0", temperature := 1 }) ∧
    ((3 : ℚ)/2 ≠ 1) := by
  refine ⟨?_, by norm_num⟩
  rw [update_single_other "temperature" (by decide) (by decide)]
  norm_num [pyFloat, Settings.updateMethod?, updateTemperature_eq,
            round2_five]

/-- C1 witness: the amended theorem applied at the counterexample input. -/
theorem C1_witness :
    pyFloat (.vfloat 5) = .ok 5 ∧
    Validators.validate_range UpdField.temperature.bounds
      (.vfloat (round2 5)) = .ok false ∧
    Settings.update { model := .vstr "m0", temperature := 3/2 }
        [("temperature", .vfloat 5)] [] =
      .ok ([("temperature", (false, .vfloat (round2 5)))],
           UpdField.temperature.write
             { model := .vstr "m0", temperature := 3/2 }
             UpdField.temperature.dflt) := by
  have hout : Validators.validate_range UpdField.temperature.bounds
      (.vfloat (round2 5)) = .ok false := by
    rw [round2_five]
    rfl
  exact ⟨rfl, hout,
    C1_out_of_range_update_resets_field_to_default .temperature
      { model := .vstr "m0", temperature := 3/2 } (.vfloat 5) 5 [] rfl hout⟩

/-- C2 (code bug evidence): the manager's `load` of a well-formed settings
file holding `temperature: 99.0` succeeds and leaves `temperature = 99`,
which fails the declared [0, 2] range check — `PropertyPlug.load` never
invokes the load-time validation (`clean_and_validate`), so the in-domain
invariant claimed for "after load" does not hold. -/
theorem C2_manager_load_keeps_out_of_domain_value :
    (SettingsPlug.load
      ⟨defaultSettings,
       some [("model", .vstr DEFAULT_MODEL),
             ("temperature", .vfloat 99)]⟩).configuration.temperature = 99 ∧
    Validators.validate_range (0, 2) (.vfloat 99) = .ok false :=
  ⟨rfl, rfl⟩

/-- C3 (amended): a `model` update is accepted iff the supplied value is a
string (possibly empty) AND (the known-models list is empty OR the value
is a member of it); on accept the live model is replaced, on reject the
status map holds `(false, input)` and the field is unchanged. -/
theorem C3_model_update_characterisation
    (s : Settings) (v : PyVal) (ms : List PyVal) :
    Settings.update s [("model", v)] ms =
      (let b := Validators.validate_str v &&
        (ms.isEmpty || ms.any fun m => pyEq m v)
       .ok ([("model", (b, v))], if b then { s with model := v } else s)) :=
  update_single_model s v ms

/-- C3 counterexample: with an empty known-models list, updating `model`
with the empty string is accepted and assigned — the claim requires a
non-empty string to be accepted. -/
theorem C3_counterexample_empty_string_model_accepted :
    Settings.update { model := .vstr "m0" } [("model", .vstr "")] [] =
      .ok ([("model", (true, .vstr ""))], { model := .vstr "" }) := rfl

/-- C4 (amended): a supplied field name that matches no update route (and
is not the skipped `models` key) is silently ignored when its value passes
the numeric check, but when the value fails the numeric check the unknown
field IS reported as `(false, value)` in the status map (and a
`TypeError`-raising value propagates the exception). -/
theorem C4_unknown_field_reported_only_when_non_numeric
    (attr : String) (v : PyVal) (s : Settings) (ms : List PyVal)
    (h1 : attr ≠ "models") (h2 : attr ≠ "model")
    (h3 : Settings.updateMethod? attr = none) :
    Settings.update s [(attr, v)] ms =
      match pyFloat v with
      | .error .typeError => .error s
      | .error .valueError => .ok ([(attr, (false, v))], s)
      | .ok _ => .ok ([], s) := by
  rw [update_single_other attr h1 h2, h3]

/-- C4 counterexample: the unknown field name `foo` supplied with the
non-numeric value `"bar"` appears in the returned status map as
`(false, "bar")` — the claim requires it never to appear. -/
theorem C4_counterexample_unknown_field_appears :
    Settings.update { model := .vstr "m0" } [("foo", .vstr "bar")] [] =
      .ok ([("foo", (false, .vstr "bar"))], { model := .vstr "m0" }) := by
  decide

/-- C4 witness: the amended theorem applied at the unknown field `foo`
with a numeric value (silently ignored). -/
theorem C4_witness :
    Settings.update { model := .vstr "m0" } [("foo", .vfloat 1)] [] =
      .ok ([], { model := .vstr "m0" }) := by
  have h := C4_unknown_field_reported_only_when_non_numeric "foo"
    (.vfloat 1) { model := .vstr "m0" } [] (by decide) (by decide) rfl
  simpa using h

/-- C5: `clean_and_validate` resets each numeric field failing its range
check to that field's type default (in-range fields are kept), leaves the
model field unassigned, and returns `false` exactly when the model field
fails its string type check — with the numeric normalisations performed
either way. -/
theorem C5_clean_and_validate_normalises_and_checks_model (s : Settings) :
    Settings.clean_and_validate s =
      (Validators.validate_str s.model,
       { model := s.model,
         temperature :=
           if 0 ≤ s.temperature ∧ s.temperature ≤ 2 then s.temperature else 1,
         frequency_penalty :=
           if -2 ≤ s.frequency_penalty ∧ s.frequency_penalty ≤ 2 then
             s.frequency_penalty else 0,
         presence_penalty :=
           if -2 ≤ s.presence_penalty ∧ s.presence_penalty ≤ 2 then
             s.presence_penalty else 0,
         top_p := if 0 ≤ s.top_p ∧ s.top_p ≤ 1 then s.top_p else 1 }) := by
  unfold Settings.clean_and_validate
  simp [updateTemperature_eq, updateFrequency_eq, updatePresence_eq,
        updateTop_eq, updateModel_onloading]

/-- C6: whenever deserialisation of the persisted file fails (missing
file, malformed content, or missing required field — all collapsed into a
failed parse), the manager's `load` leaves the fully-populated default
entity (`Settings(DEFAULT_MODEL)` with all numeric dataclass defaults,
`Prompt(DEFAULT_PROMPT)`), and the method's type surfaces no error. -/
theorem C6_load_failure_falls_back_to_defaults :
    (∀ pl : SettingsPlug, Settings.load pl.file = none →
      (pl.load).configuration = defaultSettings) ∧
    (∀ pl : PromptPlug, Prompt.load pl.file = none →
      (pl.load).configuration = defaultPrompt) := by
  constructor
  · intro pl h
    simp [SettingsPlug.load, h]
  · intro pl h
    simp [PromptPlug.load, h]

/-- C6 witness: a settings file missing the required `model` key falls
back to the default Settings; a missing prompt file falls back to the
default Prompt. -/
theorem C6_witness :
    (SettingsPlug.load
      ⟨defaultSettings, some [("temperature", .vfloat 1)]⟩).configuration
        = defaultSettings ∧
    (PromptPlug.load ⟨defaultPrompt, none⟩).configuration = defaultPrompt :=
  ⟨C6_load_failure_falls_back_to_defaults.1
      ⟨defaultSettings, some [("temperature", .vfloat 1)]⟩ rfl,
   C6_load_failure_falls_back_to_defaults.2 ⟨defaultPrompt, none⟩ rfl⟩

/-- C7 (code bug evidence): `validate_range` promises `False` for every
non-numeric value, but on the values whose `float()` conversion raises
`TypeError` (`None`, a list, a dict) the exception escapes instead of a
`False` return. -/
theorem C7_validate_range_raises_instead_of_false :
    Validators.validate_range (0, 2) .vnone = .error () ∧
    Validators.validate_range (0, 2) .vlist = .error () ∧
    Validators.validate_range (0, 2) .vdict = .error () :=
  ⟨rfl, rfl, rfl⟩

/-- C8: `preset()` is idempotent for both Configuration Managers — calling
it twice leaves the manager (entity and persisted file) in the same state
as calling it once. -/
theorem C8_preset_idempotent :
    (∀ pl : SettingsPlug, pl.preset.preset = pl.preset) ∧
    (∀ pl : PromptPlug, pl.preset.preset = pl.preset) :=
  ⟨fun _ => rfl, fun _ => rfl⟩

/-- C9: for every valid Settings entity and every Prompt entity, `save`
followed by `load` of the written content succeeds and reproduces an
entity equal to the original (exact equality, which subsumes equality
modulo rounding to two decimals). -/
theorem C9_save_load_roundtrip :
    (∀ s : Settings, s.inDomain → Settings.load (some s.save) = some s) ∧
    (∀ p : Prompt, Prompt.load (some p.save) = some p) :=
  ⟨fun _ _ => rfl, fun _ => rfl⟩

/-- C9 witness: the round-trip theorem applied to the default entities. -/
theorem C9_witness :
    defaultSettings.inDomain ∧
    Settings.load (some defaultSettings.save) = some defaultSettings ∧
    Prompt.load (some defaultPrompt.save) = some defaultPrompt := by
  have hd : defaultSettings.inDomain := by
    refine ⟨rfl, ?_, ?_, ?_, ?_, ?_, ?_, ?_, ?_⟩ <;>
      norm_num [defaultSettings]
  exact ⟨hd, C9_save_load_roundtrip.1 defaultSettings hd,
    C9_save_load_roundtrip.2 defaultPrompt⟩

/-- C10: `validate_numeric` returns a boolean for every string, int or
float input, but raises an uncaught `TypeError` on `None`, a list or a
dict; consequently `Settings.update` propagates the exception instead of
returning a `(false, value)` status entry when a numeric field receives
such a value. -/
theorem C10_validate_numeric_typeerror_propagates :
    (∀ t : String, ∃ b, Validators.validate_numeric (.vstr t) = .ok b) ∧
    (∀ n : ℤ, Validators.validate_numeric (.vint n) = .ok true) ∧
    (∀ q : ℚ, Validators.validate_numeric (.vfloat q) = .ok true) ∧
    Validators.validate_numeric .vnone = .error () ∧
    Validators.validate_numeric .vlist = .error () ∧
    Validators.validate_numeric .vdict = .error () ∧
    (∀ (s : Settings) (ms : List PyVal),
      Settings.update s [("temperature", .vnone)] ms = .error s) := by
  refine ⟨?_, fun _ => rfl, fun _ => rfl, rfl, rfl, rfl, fun _ _ => rfl⟩
  intro t
  unfold Validators.validate_numeric pyFloat
  cases h : parseFloat? t <;> simp [h]
